import Mathlib

/-!
Shallow embedding of the accident-detection core of the
Vehicle-Accident-Detection repository: the Detection Engine
(src/detection.js, class AccidentDetector) and the Alert Lifecycle
(src/unnamed/part_000, class AlertHandler).  Timestamps and durations are
integers (milliseconds, as produced by Date.now()); g-forces, angles and
sound levels are rationals.  Each definition mirrors one function of the
source; DOM updates, logging and sound playback are pure observations and
are either dropped or recorded as explicit effect values.
-/

namespace VehicleAccident

/-- Severity levels of the engine, the string enum of detection.js. -/
inductive Severity
  | none
  | low
  | medium
  | high
  | critical
deriving DecidableEq

/-- The `type` field of a detection event: impact, rotation or combined. -/
inductive EventType
  | impact
  | rotation
  | combined
deriving DecidableEq

/-- Extra fields stored on a detection event, per event type. -/
inductive EventMetrics
  | impact (force : ℚ) (duration : ℤ)
  | rotation (deltaBeta deltaGamma : ℚ)
  | combined (soundLevel : ℚ)
deriving DecidableEq

/-- One entry of `detectionHistory` (the objects built by
`analyzeSensorData`, `checkRotationAnomaly` and `analyzeAudioData`). -/
structure DetectionEvent where
  type : EventType
  severity : Severity
  metrics : EventMetrics
  timestamp : ℤ
deriving DecidableEq

/-- Orientation reading: the `rotation` part of the sensor data. -/
structure RotationData where
  alpha : ℚ
  beta : ℚ
  gamma : ℚ
deriving DecidableEq

/-- The sensor payload handed to `analyzeSensorData`. -/
structure SensorData where
  impactForce : ℚ
  rotation : RotationData
deriving DecidableEq

/-- The `detectionThresholds` object of the AccidentDetector constructor,
with its default values. -/
structure Thresholds where
  lowImpact : ℚ := 2.5
  mediumImpact : ℚ := 4.0
  highImpact : ℚ := 6.0
  criticalImpact : ℚ := 8.0
  crashSoundLevel : ℚ := 100
  suddenRotation : ℚ := 45
  sustainedForceDuration : ℤ := 200
deriving DecidableEq

/-- Default thresholds as set in the constructor. -/
def defaultThresholds : Thresholds := {}

/-- Mutable state of the AccidentDetector instance. -/
structure DetectorState where
  isActive : Bool
  detectionHistory : List DetectionEvent
  lastImpactTime : ℤ
  highForceStartTime : ℤ
  sustainedHighForce : Bool
  previousRotation : Option RotationData
deriving DecidableEq

/-- The AccidentDetector constructor state. -/
def initialDetector : DetectorState :=
  { isActive := false
    detectionHistory := []
    lastImpactTime := 0
    highForceStartTime := 0
    sustainedHighForce := false
    previousRotation := Option.none }

/-- The `details` object passed along with an alert request. -/
inductive AlertDetails
  | impact (impactForce : ℚ) (duration : ℤ)
  | combined (soundLevel : ℚ)
deriving DecidableEq

/-- A request that reached `window.alertHandler.showAlert`: severity plus
details.  `triggerAccidentAlert` emits at most one of these per call. -/
structure AlertRequest where
  severity : Severity
  details : AlertDetails
deriving DecidableEq

/-- Translation of `calculateSeverity(impactForce, duration)`. -/
def calculateSeverity (t : Thresholds) (impactForce : ℚ) (duration : ℤ) :
    Severity :=
  if impactForce ≥ t.criticalImpact ∨
      (impactForce ≥ t.highImpact ∧ duration ≥ t.sustainedForceDuration) then
    Severity.critical
  else if impactForce ≥ t.highImpact then
    Severity.high
  else if impactForce ≥ t.mediumImpact then
    Severity.medium
  else if impactForce ≥ t.lowImpact then
    Severity.low
  else
    Severity.none

/-- Translation of `calculateCombinedSeverity(impactEvent, soundLevel)`:
two consecutive (not chained) if statements reassigning `severity`. -/
def calculateCombinedSeverity (t : Thresholds) (impactEvent : DetectionEvent)
    (soundLevel : ℚ) : Severity :=
  let severity := impactEvent.severity
  if soundLevel ≥ t.crashSoundLevel then
    let severity := if severity = Severity.medium then Severity.high else severity
    if severity = Severity.low then Severity.medium else severity
  else
    severity

/-- Translation of `hasRecentImpact(currentTime, timeWindow)`: scan the
history from the most recent entry backwards and return the first impact
event inside the window. -/
def hasRecentImpact (history : List DetectionEvent) (currentTime : ℤ)
    (timeWindow : ℤ) : Option DetectionEvent :=
  history.reverse.find? fun event =>
    decide (currentTime - event.timestamp ≤ timeWindow) &&
      decide (event.type = EventType.impact)

/-- Translation of `addDetectionEvent(event)` restricted to the history
buffer: push the event and drop the oldest entry beyond 50. -/
def addDetectionEvent (history : List DetectionEvent)
    (event : DetectionEvent) : List DetectionEvent :=
  let h := history ++ [event]
  if h.length > 50 then h.drop 1 else h

/-- Translation of `triggerAccidentAlert(severity, details)`.  Returns the
updated detector state and `some request` exactly when
`window.alertHandler.showAlert(severity, details)` is reached. -/
def triggerAccidentAlert (s : DetectorState) (currentTime : ℤ)
    (severity : Severity) (details : AlertDetails) :
    DetectorState × Option AlertRequest :=
  if currentTime - s.lastImpactTime < 10000 then
    (s, Option.none)
  else
    let s := { s with lastImpactTime := currentTime }
    if severity = Severity.low ∨ severity = Severity.none then
      (s, Option.none)
    else
      (s, Option.some ⟨severity, details⟩)

/-- Translation of `checkRotationAnomaly(rotation)`.  The source computes
`deltaAlpha` as well but never uses it.  No alert request is issued on
this path in the source, so the return type carries none. -/
def checkRotationAnomaly (t : Thresholds) (s : DetectorState)
    (rotation : RotationData) (currentTime : ℤ) : DetectorState :=
  match s.previousRotation with
  | Option.none => { s with previousRotation := Option.some rotation }
  | Option.some prev =>
    let deltaBeta := |rotation.beta - prev.beta|
    let deltaGamma := |rotation.gamma - prev.gamma|
    let rotationEvent : DetectionEvent :=
      { type := EventType.rotation
        severity := Severity.high
        metrics := EventMetrics.rotation deltaBeta deltaGamma
        timestamp := currentTime }
    let s :=
      if deltaBeta > t.suddenRotation ∨ deltaGamma > t.suddenRotation then
        { s with detectionHistory := addDetectionEvent s.detectionHistory rotationEvent }
      else s
    { s with previousRotation := Option.some rotation }

/-- Translation of `analyzeSensorData(sensorData)`: the impact path
followed by the rotation check, guarded by `isActive`. -/
def analyzeSensorData (t : Thresholds) (s : DetectorState)
    (currentTime : ℤ) (sensorData : SensorData) :
    DetectorState × Option AlertRequest :=
  if s.isActive = false then
    (s, Option.none)
  else
    let impactForce := sensorData.impactForce
    let (s, request) :=
      if impactForce ≥ t.lowImpact then
        let s :=
          if s.sustainedHighForce then s
          else { s with highForceStartTime := currentTime,
                        sustainedHighForce := true }
        let forceDuration := currentTime - s.highForceStartTime
        let severity := calculateSeverity t impactForce forceDuration
        let impactEvent : DetectionEvent :=
          { type := EventType.impact
            severity := severity
            metrics := EventMetrics.impact impactForce forceDuration
            timestamp := currentTime }
        let s := { s with detectionHistory := addDetectionEvent s.detectionHistory impactEvent }
        if severity ≠ Severity.none then
          triggerAccidentAlert s currentTime severity
            (AlertDetails.impact impactForce forceDuration)
        else
          (s, Option.none)
      else
        ({ s with sustainedHighForce := false }, Option.none)
    (checkRotationAnomaly t s sensorData.rotation currentTime, request)

/-- Translation of `analyzeAudioData(audioData)`, guarded by `isActive`,
the crash-sound threshold and the 5000 ms deduplication window. -/
def analyzeAudioData (t : Thresholds) (s : DetectorState) (currentTime : ℤ)
    (level : ℚ) : DetectorState × Option AlertRequest :=
  if s.isActive = false then
    (s, Option.none)
  else if level ≥ t.crashSoundLevel then
    if currentTime - s.lastImpactTime > 5000 then
      match hasRecentImpact s.detectionHistory currentTime 2000 with
      | Option.some recentImpact =>
        let severity := calculateCombinedSeverity t recentImpact level
        let combinedEvent : DetectionEvent :=
          { type := EventType.combined
            severity := severity
            metrics := EventMetrics.combined level
            timestamp := currentTime }
        let s := { s with detectionHistory := addDetectionEvent s.detectionHistory combinedEvent }
        triggerAccidentAlert s currentTime severity
          (AlertDetails.combined level)
      | Option.none => (s, Option.none)
    else
      (s, Option.none)
  else
    (s, Option.none)

/-- Events seen by the engine cooldown state over one execution: alert
requests reaching `triggerAccidentAlert`, and the deferred
`accidentDetector.lastImpactTime = 0` write that `cancelAlert` schedules
5000 ms after a cancellation. -/
inductive EngineEvent
  | request (time : ℤ) (severity : Severity) (details : AlertDetails)
  | reset
deriving DecidableEq

/-- Run a list of engine events through `triggerAccidentAlert`, collecting
the times of the honored requests (those reaching showAlert) in order. -/
def processEvents (s : DetectorState) :
    List EngineEvent → DetectorState × List ℤ
  | [] => (s, [])
  | EngineEvent.request time severity details :: rest =>
    let step := triggerAccidentAlert s time severity details
    let out := processEvents step.1 rest
    match step.2 with
    | Option.some _ => (out.1, time :: out.2)
    | Option.none => (out.1, out.2)
  | EngineEvent.reset :: rest =>
    processEvents { s with lastImpactTime := 0 } rest

/-- An engine event list with no deferred cooldown reset in it. -/
def noReset (events : List EngineEvent) : Prop :=
  ∀ e ∈ events, e ≠ EngineEvent.reset

/-- Screens switched by `switchScreen`. -/
inductive Screen
  | dashboard
  | alertScreen
  | emergencyScreen
deriving DecidableEq

/-- Mutable state of the AlertHandler instance.  Timer, recognizer,
listener and interval handles are modelled by whether they are armed;
the visible screen is carried explicitly. -/
structure AlertState where
  isAlertActive : Bool
  countdownTimer : Bool
  countdownSeconds : ℤ
  currentSeverity : Severity
  alertDetails : Option AlertDetails
  voiceRecognition : Bool
  shakeDetection : Bool
  beepInterval : Bool
  screen : Screen
deriving DecidableEq

/-- The AlertHandler constructor state, on the dashboard screen. -/
def initialAlertHandler : AlertState :=
  { isAlertActive := false
    countdownTimer := false
    countdownSeconds := 30
    currentSeverity := Severity.medium
    alertDetails := Option.none
    voiceRecognition := false
    shakeDetection := false
    beepInterval := false
    screen := Screen.dashboard }

/-- Translation of `getCountdownTime(severity)`: the lookup table with
its `|| 30` fallback. -/
def getCountdownTime (severity : Severity) : ℤ :=
  match severity with
  | Severity.low => 60
  | Severity.medium => 30
  | Severity.high => 20
  | Severity.critical => 15
  | Severity.none => 30

/-- Translation of `showAlert(severity, details)`: a no-op while a session
is active, otherwise arm the countdown, the three cancellation listeners
and the cues and switch to the alert screen. -/
def showAlert (a : AlertState) (severity : Severity)
    (details : AlertDetails) : AlertState :=
  if a.isAlertActive then a
  else
    { a with isAlertActive := true
             currentSeverity := severity
             alertDetails := Option.some details
             countdownSeconds := getCountdownTime severity
             screen := Screen.alertScreen
             countdownTimer := true
             voiceRecognition := true
             shakeDetection := true
             beepInterval := true }

/-- The interval period, in milliseconds, of the countdown clock started
by `startCountdown` (the second argument of its setInterval call). -/
def countdownIntervalMs : ℤ := 1000

/-- What one firing of the `startCountdown` interval callback does to
`timeLeft`, and what it observes on the way. -/
structure TickResult where
  displayed : ℤ
  urgentBeep : Bool
  timeLeft : ℤ
  escalate : Bool
deriving DecidableEq

/-- Translation of the body of the setInterval callback in
`startCountdown`: display max(0, timeLeft), beep while 1 ≤ timeLeft ≤ 10,
decrement, and escalate (clear the timer and call `sendEmergencyAlert`)
exactly when the decremented value is below 0. -/
def countdownTick (timeLeft : ℤ) : TickResult :=
  { displayed := max 0 timeLeft
    urgentBeep := decide (timeLeft ≤ 10) && decide (timeLeft > 0)
    timeLeft := timeLeft - 1
    escalate := decide (timeLeft - 1 < 0) }

/-- The value of `timeLeft` after n firings of the countdown callback
(ignoring the early exit on escalation). -/
def runCountdown (timeLeft : ℤ) : ℕ → ℤ
  | 0 => timeLeft
  | n + 1 => runCountdown (countdownTick timeLeft).timeLeft n

/-- Translation of `cancelAlert()`: unconditionally clear the countdown,
stop voice recognition, shake detection and beeping, mark the session
inactive, switch to the dashboard, and schedule
`accidentDetector.lastImpactTime = 0` to run 5000 ms later.  The second
component is the delay of that scheduled engine reset. -/
def cancelAlert (a : AlertState) : AlertState × Option ℤ :=
  let a := { a with countdownTimer := false
                    voiceRecognition := false
                    shakeDetection := false
                    beepInterval := false
                    isAlertActive := false
                    screen := Screen.dashboard }
  (a, Option.some 5000)

/-- Ordered actions performed by `sendEmergencyAlert()`.  The dispatch
action records the arguments of the `emergencyHandler.sendAlert` call,
which is asynchronous and not awaited by the source. -/
inductive LifecycleAction
  | clearCountdown
  | stopVoiceRecognition
  | stopShakeDetection
  | stopContinuousBeeping
  | setAlertInactive
  | invokeDispatch (severity : Severity) (details : Option AlertDetails)
  | switchScreen (target : Screen)
deriving DecidableEq

/-- Translation of `sendEmergencyAlert()`: disarm everything, mark the
session inactive, then (when the emergency handler exists) start the
dispatch call and switch to the emergency screen.  The action list keeps
the order in which the source performs these steps. -/
def sendEmergencyAlert (a : AlertState) (handlerAvailable : Bool) :
    AlertState × List LifecycleAction :=
  let disarmed := { a with countdownTimer := false
                           voiceRecognition := false
                           shakeDetection := false
                           beepInterval := false
                           isAlertActive := false }
  let trace := [LifecycleAction.clearCountdown,
    LifecycleAction.stopVoiceRecognition,
    LifecycleAction.stopShakeDetection,
    LifecycleAction.stopContinuousBeeping,
    LifecycleAction.setAlertInactive]
  if handlerAvailable = false then
    (disarmed, trace)
  else
    ({ disarmed with screen := Screen.emergencyScreen },
      trace ++ [LifecycleAction.invokeDispatch a.currentSeverity a.alertDetails,
        LifecycleAction.switchScreen Screen.emergencyScreen])

/-- Modelled from the spec: the one-step severity upgrade the audio
correlation applies on top of a corroborated impact (Low→Medium,
Medium→High; High and Critical unchanged; an impact event of severity
None is likewise left unchanged). -/
def specUpgradeOneStep (severity : Severity) : Severity :=
  match severity with
  | Severity.low => Severity.medium
  | Severity.medium => Severity.high
  | other => other

/-- A live critical alert session, as showAlert leaves it. -/
def activeCriticalSession : AlertState :=
  { isAlertActive := true
    countdownTimer := true
    countdownSeconds := 15
    currentSeverity := Severity.critical
    alertDetails := Option.some (AlertDetails.impact 9 0)
    voiceRecognition := true
    shakeDetection := true
    beepInterval := true
    screen := Screen.alertScreen }

/-- A medium impact event recorded at t = 109500 ms whose alert request
was blocked by the 10 s cooldown (lastImpactTime was 100000). -/
def audioScenarioEvent : DetectionEvent :=
  { type := EventType.impact
    severity := Severity.medium
    metrics := EventMetrics.impact 5 0
    timestamp := 109500 }

/-- Engine state just before a loud audio sample at t = 110000 ms: active,
one recent medium impact in the history, last honored request at
t = 100000 ms. -/
def audioScenarioDetector : DetectorState :=
  { isActive := true
    detectionHistory := [audioScenarioEvent]
    lastImpactTime := 100000
    highForceStartTime := 109500
    sustainedHighForce := true
    previousRotation := Option.none }

/-- Engine state with an empty history, for the audio-alone case. -/
def quietDetector : DetectorState :=
  { isActive := true
    detectionHistory := []
    lastImpactTime := 0
    highForceStartTime := 0
    sustainedHighForce := false
    previousRotation := Option.none }

/-- Engine state that has already seen one orientation sample. -/
def rotationScenarioDetector : DetectorState :=
  { isActive := true
    detectionHistory := []
    lastImpactTime := 0
    highForceStartTime := 0
    sustainedHighForce := false
    previousRotation := Option.some { alpha := 0, beta := 0, gamma := 0 } }

/-- Helper: a request blocked by the 10 s cooldown changes nothing and is
dropped. -/
theorem triggerAccidentAlert_blocked (s : DetectorState) (now : ℤ)
    (severity : Severity) (details : AlertDetails)
    (h : now - s.lastImpactTime < 10000) :
    triggerAccidentAlert s now severity details = (s, Option.none) := by
  simp [triggerAccidentAlert, h]

/-- Helper: a request that passes the cooldown stamps lastImpactTime and
is honored exactly when its severity is not Low and not None. -/
theorem triggerAccidentAlert_pass (s : DetectorState) (now : ℤ)
    (severity : Severity) (details : AlertDetails)
    (h : ¬ now - s.lastImpactTime < 10000) :
    triggerAccidentAlert s now severity details =
      (if severity = Severity.low ∨ severity = Severity.none then
        ({ s with lastImpactTime := now }, Option.none)
      else
        ({ s with lastImpactTime := now },
          Option.some ⟨severity, details⟩)) := by
  simp only [triggerAccidentAlert, if_neg h]

/-- Helper: triggerAccidentAlert never touches the detection history. -/
theorem triggerAccidentAlert_history (s : DetectorState) (now : ℤ)
    (severity : Severity) (details : AlertDetails) :
    (triggerAccidentAlert s now severity details).1.detectionHistory =
      s.detectionHistory := by
  simp only [triggerAccidentAlert]
  split_ifs <;> rfl

/-- C1 counterexample: with lastImpactTime = 0, a Low-severity request at
t = 20000 ms passes the 10 s cooldown gate, is dropped by the severity
gate (no request is emitted), and yet lastImpactTime is updated from 0 to
20000 — the claim says it should remain unchanged. -/
theorem C1_counterexample_low_updates_cooldown :
    initialDetector.lastImpactTime = 0 ∧
    10000 ≤ (20000 : ℤ) - initialDetector.lastImpactTime ∧
    (triggerAccidentAlert initialDetector 20000 Severity.low
      (AlertDetails.impact 3 0)).2 = Option.none ∧
    (triggerAccidentAlert initialDetector 20000 Severity.low
      (AlertDetails.impact 3 0)).1.lastImpactTime = 20000 := by
  decide

/-- C1 (amended): lastImpactTime is updated exactly on the requests that
pass the 10 s cooldown gate, regardless of severity; a request that also
has severity other than Low and None is then handed to the Alert
Lifecycle, while a Low or None request is dropped after the update. -/
theorem C1_lastRequestTime_follows_cooldown_gate (s : DetectorState)
    (now : ℤ) (severity : Severity) (details : AlertDetails) :
    (now - s.lastImpactTime < 10000 →
      triggerAccidentAlert s now severity details = (s, Option.none)) ∧
    (10000 ≤ now - s.lastImpactTime →
      (triggerAccidentAlert s now severity details).1.lastImpactTime = now ∧
      (triggerAccidentAlert s now severity details).2 =
        (if severity = Severity.low ∨ severity = Severity.none then
          Option.none
        else
          Option.some ⟨severity, details⟩)) := by
  constructor
  · intro h
    exact triggerAccidentAlert_blocked s now severity details h
  · intro h
    have hn : ¬ now - s.lastImpactTime < 10000 := by omega
    rw [triggerAccidentAlert_pass s now severity details hn]
    split_ifs <;> exact ⟨rfl, rfl⟩

/-- C1 witness: a blocked request at t = 5000 ms leaves the initial state
unchanged, and an honored Medium request at t = 20000 ms stamps
lastImpactTime = 20000. -/
theorem C1_witness :
    triggerAccidentAlert initialDetector 5000 Severity.critical
      (AlertDetails.impact 9 0) = (initialDetector, Option.none) ∧
    (triggerAccidentAlert initialDetector 20000 Severity.medium
      (AlertDetails.impact 5 0)).1.lastImpactTime = 20000 :=
  ⟨(C1_lastRequestTime_follows_cooldown_gate initialDetector 5000
      Severity.critical (AlertDetails.impact 9 0)).1 (by decide),
    ((C1_lastRequestTime_follows_cooldown_gate initialDetector 20000
      Severity.medium (AlertDetails.impact 5 0)).2 (by decide)).1⟩

/-- Helper: without resets, the honored request times form a chain that is
separated by at least 10000 ms, seeded by the current lastImpactTime. -/
theorem processEvents_cooldown_chain (events : List EngineEvent) :
    noReset events → ∀ s : DetectorState,
      List.Chain' (fun a b => a + 10000 ≤ b)
        (s.lastImpactTime :: (processEvents s events).2) := by
  induction events with
  | nil =>
    intro _ s
    simp [processEvents]
  | cons e rest ih =>
    intro h s
    have hrest : noReset rest := fun x hx => h x (List.mem_cons_of_mem _ hx)
    cases e with
    | reset => exact absurd rfl (h _ (by simp))
    | request time severity details =>
      by_cases hgate : time - s.lastImpactTime < 10000
      · have heq :
            processEvents s (EngineEvent.request time severity details :: rest) =
              processEvents s rest := by
          simp [processEvents,
            triggerAccidentAlert_blocked s time severity details hgate]
        rw [heq]
        exact ih hrest s
      · by_cases hsev : severity = Severity.low ∨ severity = Severity.none
        · have heq :
              processEvents s (EngineEvent.request time severity details :: rest) =
                processEvents { s with lastImpactTime := time } rest := by
            simp [processEvents,
              triggerAccidentAlert_pass s time severity details hgate, hsev]
          rw [heq]
          have h2 := ih hrest { s with lastImpactTime := time }
          rcases List.chain'_cons'.mp h2 with ⟨hhead, htail⟩
          refine List.chain'_cons'.mpr ⟨?_, htail⟩
          intro y hy
          have hty : time + 10000 ≤ y := hhead y hy
          omega
        · have heq :
              (processEvents s (EngineEvent.request time severity details :: rest)).2 =
                time :: (processEvents { s with lastImpactTime := time } rest).2 := by
            simp [processEvents,
              triggerAccidentAlert_pass s time severity details hgate, hsev]
          rw [heq, List.chain'_cons]
          refine ⟨by omega, ?_⟩
          exact ih hrest { s with lastImpactTime := time }

/-- Transitivity of the 10 s separation relation on request times. -/
instance : IsTrans ℤ (fun a b => a + 10000 ≤ b) :=
  ⟨fun _ _ _ h1 h2 => by omega⟩

/-- C2 counterexample: a Medium request honored at t = 100000 ms, then the
reset that cancelAlert scheduled (lastImpactTime = 0), then a Medium
request at t = 107000 ms: both are honored although they are only
7000 ms < 10000 ms apart. -/
theorem C2_counterexample_reset_breaks_separation :
    (processEvents initialDetector
      [EngineEvent.request 100000 Severity.medium (AlertDetails.impact 5 0),
        EngineEvent.reset,
        EngineEvent.request 107000 Severity.medium (AlertDetails.impact 5 0)]).2 =
      [100000, 107000] ∧
    (107000 : ℤ) - 100000 < 10000 := by
  decide

/-- C2 (amended): in every execution in which no cancellation-scheduled
cooldown reset fires, every two honored alert requests are at least
10000 ms apart, no matter how many qualifying samples arrive in between. -/
theorem C2_honored_requests_separated (events : List EngineEvent)
    (h : noReset events) (s : DetectorState) :
    List.Pairwise (fun a b => a + 10000 ≤ b) ((processEvents s events).2) := by
  have hc := (processEvents_cooldown_chain events h s).tail
  exact List.chain'_iff_pairwise.mp hc

/-- C2 witness: a burst of three qualifying requests with no reset honors
the first and third, and the honored times are 10000 ms apart. -/
theorem C2_witness :
    List.Pairwise (fun a b => a + 10000 ≤ b)
      ((processEvents initialDetector
        [EngineEvent.request 100000 Severity.medium (AlertDetails.impact 5 0),
          EngineEvent.request 105000 Severity.critical (AlertDetails.impact 9 0),
          EngineEvent.request 110000 Severity.high (AlertDetails.impact 7 0)]).2) :=
  C2_honored_requests_separated _ (by simp [noReset]) initialDetector

/-- C3 counterexample: on countdown expiry, sendEmergencyAlert marks the
session inactive (action setAlertInactive, index 4) strictly before it
starts the dispatch call (action invokeDispatch, index 5); the resulting
state is no longer active, and a new trigger on it is accepted rather
than dropped — so the session is Idle, able to accept a new trigger,
while the non-awaited dispatch call is still in flight. -/
theorem C3_counterexample_idle_before_dispatch :
    (sendEmergencyAlert activeCriticalSession true).2.indexOf
        LifecycleAction.setAlertInactive <
      (sendEmergencyAlert activeCriticalSession true).2.indexOf
        (LifecycleAction.invokeDispatch Severity.critical
          (Option.some (AlertDetails.impact 9 0))) ∧
    (sendEmergencyAlert activeCriticalSession true).1.isAlertActive = false ∧
    showAlert (sendEmergencyAlert activeCriticalSession true).1
        Severity.medium (AlertDetails.impact 5 0) ≠
      (sendEmergencyAlert activeCriticalSession true).1 := by
  decide

/-- C3 (amended): when the countdown expires, the session disarms the
countdown, cancellation listeners and cues, returns to Idle
(isAlertActive = false), and only then invokes the emergency-dispatch
hand-off with (severity, details) and switches to the emergency screen;
the dispatch call is not awaited, so the session can accept a new trigger
while dispatch is in flight, and no separate Escalated state exists. -/
theorem C3_dispatch_after_idle (a : AlertState) :
    (sendEmergencyAlert a true).2 =
      [LifecycleAction.clearCountdown,
        LifecycleAction.stopVoiceRecognition,
        LifecycleAction.stopShakeDetection,
        LifecycleAction.stopContinuousBeeping,
        LifecycleAction.setAlertInactive,
        LifecycleAction.invokeDispatch a.currentSeverity a.alertDetails,
        LifecycleAction.switchScreen Screen.emergencyScreen] ∧
    (sendEmergencyAlert a true).1 =
      { a with countdownTimer := false
               voiceRecognition := false
               shakeDetection := false
               beepInterval := false
               isAlertActive := false
               screen := Screen.emergencyScreen } :=
  ⟨rfl, rfl⟩

/-- C4 counterexample: a cancellation received while the session is
already Idle is not a no-op: it still schedules the engine reset
(lastImpactTime cleared 5000 ms later) and still switches the screen to
the dashboard. -/
theorem C4_counterexample_idle_cancel_not_noop :
    initialAlertHandler.isAlertActive = false ∧
    (cancelAlert initialAlertHandler).2 = Option.some 5000 ∧
    ({ initialAlertHandler with
        screen := Screen.emergencyScreen }).isAlertActive = false ∧
    (cancelAlert { initialAlertHandler with
        screen := Screen.emergencyScreen }).1.screen = Screen.dashboard := by
  decide

/-- C4 (amended): cancelAlert unconditionally disarms the countdown
clock, all cancellation listeners and all cues, marks the session Idle
and switches to the dashboard, and always schedules the engine cooldown
reset 5000 ms later — in particular a cancellation while Active returns
the session to Idle with everything disarmed, but a cancellation while
already Idle is not a complete no-op: it repeats the screen switch and
schedules another cooldown reset. -/
theorem C4_cancel_disarms_and_schedules_reset (a : AlertState) :
    (cancelAlert a).1 =
      { a with countdownTimer := false
               voiceRecognition := false
               shakeDetection := false
               beepInterval := false
               isAlertActive := false
               screen := Screen.dashboard } ∧
    (cancelAlert a).2 = Option.some 5000 :=
  ⟨rfl, rfl⟩

/-- C5 (confirmed): severity classification is the stated first-match
precedence over impact force and duration; in the band 6 ≤ f < 8 the
duration decides between High (below 200 ms) and Critical (at or above
200 ms). -/
theorem C5_severity_precedence (f : ℚ) (d : ℤ) :
    (8 ≤ f → calculateSeverity defaultThresholds f d = Severity.critical) ∧
    (6 ≤ f → f < 8 → 200 ≤ d →
      calculateSeverity defaultThresholds f d = Severity.critical) ∧
    (6 ≤ f → f < 8 → d < 200 →
      calculateSeverity defaultThresholds f d = Severity.high) ∧
    (4 ≤ f → f < 6 →
      calculateSeverity defaultThresholds f d = Severity.medium) ∧
    (2.5 ≤ f → f < 4 →
      calculateSeverity defaultThresholds f d = Severity.low) ∧
    (f < 2.5 →
      calculateSeverity defaultThresholds f d = Severity.none) := by
  have hlo : defaultThresholds.lowImpact = 2.5 := rfl
  have hme : defaultThresholds.mediumImpact = 4 := by
    norm_num [defaultThresholds]
  have hhi : defaultThresholds.highImpact = 6 := by
    norm_num [defaultThresholds]
  have hcr : defaultThresholds.criticalImpact = 8 := by
    norm_num [defaultThresholds]
  have hdu : defaultThresholds.sustainedForceDuration = 200 := rfl
  simp only [calculateSeverity, hlo, hme, hhi, hcr, hdu]
  refine ⟨fun h1 => ?_, fun h1 h2 h3 => ?_, fun h1 h2 h3 => ?_,
    fun h1 h2 => ?_, fun h1 h2 => ?_, fun h1 => ?_⟩
  · split_ifs with hA hB hC hD <;>
      first
        | rfl
        | exact absurd (Or.inl h1) hA
  · split_ifs with hA <;>
      first
        | rfl
        | exact absurd (Or.inr ⟨h1, h3⟩) hA
  · split_ifs with hA
    · exfalso
      rcases hA with h | ⟨h6, hd⟩
      · linarith
      · omega
    · rfl
  · split_ifs with hA hB
    · exfalso
      rcases hA with h | ⟨h6, hd⟩ <;> linarith
    · exfalso; linarith
    · rfl
  · split_ifs with hA hB hC
    · exfalso
      rcases hA with h | ⟨h6, hd⟩ <;> linarith
    · exfalso; linarith
    · exfalso; linarith
    · rfl
  · split_ifs with hA hB hC hD
    · exfalso
      rcases hA with h | ⟨h6, hd⟩ <;> linarith
    · exfalso; linarith
    · exfalso; linarith
    · exfalso; linarith
    · rfl

/-- C5 witness: 9 g is Critical; 6.5 g for 100 ms is High; 6.5 g for
300 ms is Critical; 5.2 g is Medium; 3 g is Low; 1 g is None. -/
theorem C5_witness :
    calculateSeverity defaultThresholds 9 0 = Severity.critical ∧
    calculateSeverity defaultThresholds 6.5 100 = Severity.high ∧
    calculateSeverity defaultThresholds 6.5 300 = Severity.critical ∧
    calculateSeverity defaultThresholds 5.2 0 = Severity.medium ∧
    calculateSeverity defaultThresholds 3 0 = Severity.low ∧
    calculateSeverity defaultThresholds 1 0 = Severity.none :=
  ⟨(C5_severity_precedence 9 0).1 (by norm_num),
    (C5_severity_precedence 6.5 100).2.2.1 (by norm_num) (by norm_num)
      (by norm_num),
    (C5_severity_precedence 6.5 300).2.1 (by norm_num) (by norm_num)
      (by norm_num),
    (C5_severity_precedence 5.2 0).2.2.2.1 (by norm_num) (by norm_num),
    (C5_severity_precedence 3 0).2.2.2.2.1 (by norm_num) (by norm_num),
    (C5_severity_precedence 1 0).2.2.2.2.2 (by norm_num)⟩

/-- Helper: n firings of the countdown callback decrement timeLeft by n. -/
theorem runCountdown_eq (n : ℕ) :
    ∀ timeLeft : ℤ, runCountdown timeLeft n = timeLeft - n := by
  induction n with
  | zero =>
    intro t
    simp [runCountdown]
  | succ k ih =>
    intro t
    rw [runCountdown, ih]
    simp only [countdownTick]
    push_cast
    ring

/-- C6 (confirmed): a trigger accepted in Idle starts the countdown at
the severity lookup (Low 60, Medium 30, High 20, Critical 15), the clock
fires once per second and decrements by 1, escalation fires exactly when
the counter goes below 0, and for Critical that happens on the 16th tick
and on no earlier one. -/
theorem C6_countdown_schedule (a : AlertState) (severity : Severity)
    (details : AlertDetails) :
    (getCountdownTime Severity.low = 60 ∧
      getCountdownTime Severity.medium = 30 ∧
      getCountdownTime Severity.high = 20 ∧
      getCountdownTime Severity.critical = 15) ∧
    (a.isAlertActive = false →
      (showAlert a severity details).countdownSeconds =
        getCountdownTime severity) ∧
    countdownIntervalMs = 1000 ∧
    (∀ timeLeft : ℤ, (countdownTick timeLeft).timeLeft = timeLeft - 1) ∧
    (∀ timeLeft : ℤ,
      (countdownTick timeLeft).escalate = true ↔ timeLeft - 1 < 0) ∧
    (∀ k : ℕ,
      (countdownTick
          (runCountdown (getCountdownTime Severity.critical) k)).escalate =
        true ↔ 15 ≤ k) := by
  refine ⟨⟨rfl, rfl, rfl, rfl⟩, ?_, rfl, fun t => rfl, ?_, ?_⟩
  · intro h
    simp [showAlert, h]
  · intro t
    simp [countdownTick]
  · intro k
    rw [runCountdown_eq]
    simp only [countdownTick, getCountdownTime, decide_eq_true_eq]
    omega

/-- C6 witness: an accepted Critical trigger starts at 15, ticks 1..15 do
not escalate, and tick 16 does. -/
theorem C6_witness :
    (showAlert initialAlertHandler Severity.critical
      (AlertDetails.impact 9 0)).countdownSeconds =
        getCountdownTime Severity.critical ∧
    ((countdownTick
        (runCountdown (getCountdownTime Severity.critical) 14)).escalate =
      true → False) ∧
    (countdownTick
        (runCountdown (getCountdownTime Severity.critical) 15)).escalate =
      true :=
  ⟨(C6_countdown_schedule initialAlertHandler Severity.critical
      (AlertDetails.impact 9 0)).2.1 rfl,
    fun h =>
      absurd (((C6_countdown_schedule initialAlertHandler Severity.critical
        (AlertDetails.impact 9 0)).2.2.2.2.2 14).mp h) (by decide),
    ((C6_countdown_schedule initialAlertHandler Severity.critical
      (AlertDetails.impact 9 0)).2.2.2.2.2 15).mpr (by decide)⟩

/-- C7 (confirmed): showAlert while a session is active is a no-op: the
trigger is dropped and the whole session state — severity, details,
countdown, screen and all armed listeners — is unchanged. -/
theorem C7_single_session_noop (a : AlertState) (severity : Severity)
    (details : AlertDetails) (h : a.isAlertActive = true) :
    showAlert a severity details = a := by
  simp [showAlert, h]

/-- C7 witness: a Medium trigger against a live Critical session changes
nothing. -/
theorem C7_witness :
    showAlert activeCriticalSession Severity.medium
      (AlertDetails.impact 5 0) = activeCriticalSession :=
  C7_single_session_noop activeCriticalSession Severity.medium
    (AlertDetails.impact 5 0) rfl

/-- C8 (confirmed): when a loud audio sample (at least 100 dB) finds an
impact event in the preceding 2000 ms, the combined severity is the
impact severity upgraded exactly one step (Low to Medium, Medium to High,
High and Critical unchanged — never two steps), and on the active path
the Combined history entry carries exactly that upgraded severity. -/
theorem C8_combined_upgrades_one_step (s : DetectorState) (now : ℤ)
    (level : ℚ) (ev : DetectionEvent) (hL : 100 ≤ level)
    (hFind : hasRecentImpact s.detectionHistory now 2000 = Option.some ev) :
    calculateCombinedSeverity defaultThresholds ev level =
      specUpgradeOneStep ev.severity ∧
    (s.isActive = true → now - s.lastImpactTime > 5000 →
      (analyzeAudioData defaultThresholds s now level).1.detectionHistory =
        addDetectionEvent s.detectionHistory
          ({ type := EventType.combined
             severity := specUpgradeOneStep ev.severity
             metrics := EventMetrics.combined level
             timestamp := now })) := by
  have hLevel : level ≥ defaultThresholds.crashSoundLevel := hL
  have hmain : calculateCombinedSeverity defaultThresholds ev level =
      specUpgradeOneStep ev.severity := by
    simp only [calculateCombinedSeverity, if_pos hLevel]
    cases hsev : ev.severity <;> simp [specUpgradeOneStep, hsev]
  refine ⟨hmain, fun hAct hGate => ?_⟩
  have hA : ¬ s.isActive = false := by
    simp [hAct]
  simp only [analyzeAudioData, if_neg hA, if_pos hLevel, if_pos hGate, hFind]
  rw [triggerAccidentAlert_history, hmain]

/-- C8 witness: a 105 dB audio sample at t = 110000 ms, 500 ms after a
Medium impact event, yields combined severity High and records a Combined
event of severity High. -/
theorem C8_witness :
    calculateCombinedSeverity defaultThresholds audioScenarioEvent 105 =
      Severity.high ∧
    (analyzeAudioData defaultThresholds audioScenarioDetector 110000
        105).1.detectionHistory =
      addDetectionEvent audioScenarioDetector.detectionHistory
        ({ type := EventType.combined
           severity := Severity.high
           metrics := EventMetrics.combined 105
           timestamp := 110000 }) :=
  ⟨(C8_combined_upgrades_one_step audioScenarioDetector 110000 105
      audioScenarioEvent (by decide) (by decide)).1,
    (C8_combined_upgrades_one_step audioScenarioDetector 110000 105
      audioScenarioEvent (by decide) (by decide)).2 rfl (by decide)⟩

/-- C9 (confirmed): neither modality alone requests an alert.  A loud
audio sample with no impact event in the preceding 2000 ms leaves the
engine state unchanged and emits no request; a motion sample below the
low-impact threshold whose orientation delta exceeds 45 degrees on beta
or gamma emits no request and only appends a Rotation event of severity
High to the history. -/
theorem C9_no_single_modality_alert :
    (∀ (s : DetectorState) (now : ℤ) (level : ℚ),
      100 ≤ level →
      hasRecentImpact s.detectionHistory now 2000 = Option.none →
      analyzeAudioData defaultThresholds s now level = (s, Option.none)) ∧
    (∀ (s : DetectorState) (now : ℤ) (sd : SensorData) (prev : RotationData),
      s.isActive = true →
      s.previousRotation = Option.some prev →
      sd.impactForce < defaultThresholds.lowImpact →
      (|sd.rotation.beta - prev.beta| > 45 ∨
        |sd.rotation.gamma - prev.gamma| > 45) →
      (analyzeSensorData defaultThresholds s now sd).2 = Option.none ∧
      (analyzeSensorData defaultThresholds s now sd).1.detectionHistory =
        addDetectionEvent s.detectionHistory
          ({ type := EventType.rotation
             severity := Severity.high
             metrics := EventMetrics.rotation
               |sd.rotation.beta - prev.beta|
               |sd.rotation.gamma - prev.gamma|
             timestamp := now })) := by
  constructor
  · intro s now level _ hFind
    simp only [analyzeAudioData, hFind]
    split_ifs <;> rfl
  · intro s now sd prev hAct hPrev hF hAnom
    have hA : ¬ s.isActive = false := by
      simp [hAct]
    have hnF : ¬ sd.impactForce ≥ defaultThresholds.lowImpact :=
      not_le.mpr hF
    have h45 : defaultThresholds.suddenRotation = 45 := rfl
    simp only [analyzeSensorData, if_neg hA, if_neg hnF]
    simp only [checkRotationAnomaly, hPrev, h45, if_pos hAnom]
    exact ⟨trivial, trivial⟩

/-- C9 witness: a 105 dB sample against an empty history changes nothing,
and a 1 g sample with a 50 degree beta jump records exactly one Rotation
event of severity High and no request. -/
theorem C9_witness :
    analyzeAudioData defaultThresholds quietDetector 11000 105 =
      (quietDetector, Option.none) ∧
    (analyzeSensorData defaultThresholds rotationScenarioDetector 1000
      ({ impactForce := 1
         rotation := { alpha := 0, beta := 50, gamma := 0 } })).2 =
      Option.none :=
  ⟨C9_no_single_modality_alert.1 quietDetector 11000 105 (by decide) rfl,
    (C9_no_single_modality_alert.2 rotationScenarioDetector 1000
      ({ impactForce := 1
         rotation := { alpha := 0, beta := 50, gamma := 0 } })
      ({ alpha := 0, beta := 0, gamma := 0 }) rfl rfl
      (by norm_num [defaultThresholds])
      (Or.inl (by norm_num))).1⟩

/-- C10 (confirmed): while the detector is inactive, motion and audio
samples are ignored completely: the state — history, lastImpactTime,
sustained-force tracker, previous rotation — is returned unchanged and no
alert request is emitted. -/
theorem C10_inactive_ignores_samples (t : Thresholds) (s : DetectorState)
    (now : ℤ) (sd : SensorData) (level : ℚ)
    (h : s.isActive = false) :
    analyzeSensorData t s now sd = (s, Option.none) ∧
    analyzeAudioData t s now level = (s, Option.none) := by
  constructor
  · simp [analyzeSensorData, h]
  · simp [analyzeAudioData, h]

/-- C10 witness: the freshly constructed detector (isActive = false)
ignores a 9 g sample and a 120 dB sample. -/
theorem C10_witness :
    analyzeSensorData defaultThresholds initialDetector 1000
      ({ impactForce := 9
         rotation := { alpha := 0, beta := 90, gamma := 0 } }) =
      (initialDetector, Option.none) ∧
    analyzeAudioData defaultThresholds initialDetector 1000 120 =
      (initialDetector, Option.none) :=
  C10_inactive_ignores_samples defaultThresholds initialDetector 1000
    ({ impactForce := 9
       rotation := { alpha := 0, beta := 90, gamma := 0 } }) 120 rfl

end VehicleAccident
